import Mathlib

/-!
Shallow embedding of the leadforge search/enrichment pipeline
(`app/routes_search.py`, `app/utils.py`) and proofs about it.

Conventions of the embedding:
* Python `None`-able values are `Option _`.
* Python dicts of OSM tags are association lists `List (String × String)`
  (keys unique in real data; lookup takes the first match, as `dict.get` does
  for a well-formed dict).
* Python truthiness is modelled explicitly: a string is truthy iff non-empty,
  a number iff non-zero, a list iff non-empty, `None` is falsy.
* Floats are modelled as `Rat` (no claim here depends on float rounding
  behaviour); the decimal rendering used inside one cache key is abstracted
  by `roundStr3` (no claim depends on its exact text).
-/

/-- Python `a or b` on optional strings: the left value wins iff it is truthy
(present and non-empty), otherwise the right value is returned as-is. -/
def pyOrStr (x y : Option String) : Option String :=
  match x with
  | some s => if s = "" then y else some s
  | none => y

/-- Python `a or b` where the right operand is a plain string (so the whole
expression is always a string), as in `(... ) or tags.get("name", "Unknown Venue")`. -/
def pyOrStrD (x : Option String) (d : String) : String :=
  match x with
  | some s => if s = "" then d else s
  | none => d

/-- Python `a or b` on optional numbers: left wins iff truthy (non-zero). -/
def pyOrRat (x y : Option Rat) : Option Rat :=
  match x with
  | some v => if v = 0 then y else some v
  | none => y

/-- Python truthiness of an optional string. -/
def pyTruthyStr (x : Option String) : Bool :=
  match x with
  | some s => s ≠ ""
  | none => false

/-- Python truthiness of an optional number. -/
def pyTruthyRat (x : Option Rat) : Bool :=
  match x with
  | some v => v ≠ 0
  | none => false

/-- `tags.get(k)` on an OSM tag dict. -/
def tagsGet (tags : List (String × String)) (k : String) : Option String :=
  (tags.find? (fun p => p.1 = k)).map (fun p => p.2)

/-- `tags.get(k, d)` on an OSM tag dict. -/
def tagsGetD (tags : List (String × String)) (k : String) (d : String) : String :=
  (tagsGet tags k).getD d

/-- The `center` sub-object of an Overpass element (`center.get("lat")` /
`center.get("lon")` may each be absent). -/
structure OsmCenter where
  lat : Option Rat := none
  lon : Option Rat := none
deriving DecidableEq

/-- A raw Overpass element: `type`, `id`, optional `lat`/`lon`, optional
`center`, and the tag dict. -/
structure OsmElement where
  type : String
  id : Int
  lat : Option Rat := none
  lon : Option Rat := none
  center : Option OsmCenter := none
  tags : List (String × String) := []
deriving DecidableEq

/-- The `processed_details` dict built by `enrich_with_google_places`
(`app/utils.py`). -/
structure GoogleEnrichment where
  google_place_id : Option String := none
  name_google : Option String := none
  address_google : Option String := none
  phone_number_google : Option String := none
  website_google : Option String := none
  rating_google : Option Rat := none
  user_ratings_total_google : Option Int := none
  opening_hours_google : Option (List String) := none
  photo_url_google : Option String := none
  google_maps_url : Option String := none
  business_status_google : Option String := none
  types_google : List String := []
  price_level_google : Option Int := none
  utc_offset_google : Option Int := none
deriving DecidableEq

/-- The normalized lead dict returned by `normalize_osm_result`
(`app/routes_search.py`).  `opening_hours` is either the Google weekday-text
list (`Sum.inl`) or the raw OSM `opening_hours` tag string (`Sum.inr`),
matching the two Python types that can land in that field. -/
structure SearchResult where
  google_place_id : Option String
  osm_id : String
  name : String
  address : Option String
  website : Option String
  phone_number : Option String
  photo_url : Option String
  types : List String
  rating : Option Rat
  user_ratings_total : Option Int
  business_status : Option String
  opening_hours : Option (Sum (List String) String)
  google_maps_url : Option String
  price_level : Option Int
  latitude : Option Rat
  longitude : Option Rat
deriving DecidableEq

/-- `normalize_osm_result(osm_element, google_enrichment=None)` from
`app/routes_search.py` lines 127-164, translated clause by clause. -/
def normalize_osm_result (osm_element : OsmElement)
    (google_enrichment : Option GoogleEnrichment) : SearchResult :=
  let tags := osm_element.tags
  -- name = (ge.get("name_google") if ge else None) or tags.get("name", "Unknown Venue")
  let name := pyOrStrD (google_enrichment.bind (fun g => g.name_google))
    (tagsGetD tags "name" "Unknown Venue")
  -- osm_address = ", ".join(filter(None, parts)) or None
  let osm_address_parts := [tagsGet tags "addr:housenumber", tagsGet tags "addr:street",
    tagsGet tags "addr:city", tagsGet tags "addr:state", tagsGet tags "addr:postcode"]
  let joined := String.intercalate ", "
    (osm_address_parts.filterMap (fun o =>
      match o with
      | some s => if s = "" then none else some s
      | none => none))
  let osm_address : Option String := if joined = "" then none else some joined
  let address := pyOrStr (google_enrichment.bind (fun g => g.address_google)) osm_address
  -- osm_categories: append each of amenity/shop/leisure/craft when truthy
  let osm_categories := ["amenity", "shop", "leisure", "craft"].filterMap (fun k =>
    match tagsGet tags k with
    | some v => if v = "" then none else some v
    | none => none)
  -- final_types_array = osm_categories, overridden by a truthy types_google
  let final_types_array :=
    match google_enrichment with
    | some g => if g.types_google.isEmpty then osm_categories else g.types_google
    | none => osm_categories
  -- lat/lon, replaced per-key by center for non-node elements having a center
  let lat0 := osm_element.lat
  let lon0 := osm_element.lon
  let latlon : Option Rat × Option Rat :=
    match osm_element.center with
    | some c =>
      if osm_element.type = "node" then (lat0, lon0)
      else ((match c.lat with | some v => some v | none => lat0),
            (match c.lon with | some v => some v | none => lon0))
    | none => (lat0, lon0)
  { google_place_id := google_enrichment.bind (fun g => g.google_place_id)
    osm_id := osm_element.type ++ "/" ++ toString osm_element.id
    name := name
    address := address
    website := pyOrStr (pyOrStr (google_enrichment.bind (fun g => g.website_google))
      (tagsGet tags "website")) (tagsGet tags "contact:website")
    phone_number := pyOrStr (pyOrStr (google_enrichment.bind (fun g => g.phone_number_google))
      (tagsGet tags "phone")) (tagsGet tags "contact:phone")
    photo_url := google_enrichment.bind (fun g => g.photo_url_google)
    types := final_types_array
    rating := google_enrichment.bind (fun g => g.rating_google)
    user_ratings_total := google_enrichment.bind (fun g => g.user_ratings_total_google)
    business_status := google_enrichment.bind (fun g => g.business_status_google)
    -- opening_hours: ge.get("opening_hours_google") if ge else tags.get("opening_hours")
    opening_hours :=
      match google_enrichment with
      | some g => g.opening_hours_google.map Sum.inl
      | none => (tagsGet tags "opening_hours").map Sum.inr
    google_maps_url := google_enrichment.bind (fun g => g.google_maps_url)
    price_level := google_enrichment.bind (fun g => g.price_level_google)
    latitude := latlon.1
    longitude := latlon.2 }

/-- `calculate_completeness_score(lead)` from `app/routes_search.py`
lines 264-270: sequential accumulation, exactly the four clauses the code has. -/
def calculate_completeness_score (lead : SearchResult) : Nat :=
  let score : Nat := 0
  let score := if lead.name ≠ "" ∧ lead.name ≠ "Unknown Venue" then score + 5 else score
  let score := if pyTruthyStr lead.address then score + 3 else score
  let score := if pyTruthyStr lead.phone_number then score + 2 else score
  let score := if pyTruthyStr lead.website then score + 2 else score
  score

/-- `is_element_sufficiently_detailed(element)` from `app/routes_search.py`
lines 220-223: `if not tags.get("name"): return False; return True`. -/
def is_element_sufficiently_detailed (element : OsmElement) : Bool :=
  pyTruthyStr (tagsGet element.tags "name")

/-- The list comprehension filtering raw elements (`app/routes_search.py`
line 224). -/
def filterElements (els : List OsmElement) : List OsmElement :=
  els.filter is_element_sufficiently_detailed

/-- The `TAG_MAPPING` table from `app/routes_search.py` lines 10-122,
transcribed entry by entry (insertion order preserved). -/
def TAG_MAPPING : List (String × List (String × String)) := [
  -- Food & Drink
  ("restaurants", [("amenity", "restaurant")]),
  ("restaurant", [("amenity", "restaurant")]),
  ("food", [("amenity", "restaurant"), ("amenity", "cafe"), ("amenity", "fast_food"),
    ("amenity", "food_court"), ("shop", "bakery"), ("shop", "deli"),
    ("shop", "ice_cream"), ("shop", "pastry")]),
  ("cafes", [("amenity", "cafe"), ("shop", "coffee")]),
  ("cafe", [("amenity", "cafe"), ("shop", "coffee")]),
  ("bars", [("amenity", "bar"), ("amenity", "pub")]),
  ("bar", [("amenity", "bar"), ("amenity", "pub")]),
  ("pubs", [("amenity", "pub"), ("amenity", "bar")]),
  ("pub", [("amenity", "pub"), ("amenity", "bar")]),
  ("nightclubs", [("amenity", "nightclub"), ("leisure", "dance")]),
  ("nightclub", [("amenity", "nightclub"), ("leisure", "dance")]),
  ("breweries", [("craft", "brewery"), ("microbrewery", "yes"), ("industrial", "brewery")]),
  ("brewery", [("craft", "brewery"), ("microbrewery", "yes"), ("industrial", "brewery")]),
  ("wineries", [("craft", "winery"), ("shop", "wine"), ("tourism", "winery")]),
  ("liquor stores", [("shop", "alcohol"), ("shop", "wine"), ("shop", "beer")]),
  ("fast food", [("amenity", "fast_food")]),
  ("bakeries", [("shop", "bakery")]),
  ("ice cream shops", [("shop", "ice_cream"), ("amenity", "ice_cream")]),
  ("pizza places", [("amenity", "restaurant"), ("cuisine", "pizza")]),
  -- Retail & Shopping
  ("shops", [("shop", "*")]),
  ("supermarkets", [("shop", "supermarket"), ("shop", "grocery")]),
  ("grocery stores", [("shop", "grocery"), ("shop", "supermarket"), ("shop", "convenience")]),
  ("convenience stores", [("shop", "convenience")]),
  ("clothing stores", [("shop", "clothes"), ("shop", "fashion"), ("shop", "boutique"), ("shop", "apparel")]),
  ("shoe stores", [("shop", "shoes")]),
  ("bookstores", [("shop", "books")]),
  ("electronics stores", [("shop", "electronics"), ("shop", "computer"), ("shop", "mobile_phone")]),
  ("hardware stores", [("shop", "hardware"), ("shop", "doityourself")]),
  ("pharmacies", [("amenity", "pharmacy"), ("shop", "chemist")]),
  ("florists", [("shop", "florist")]),
  ("gift shops", [("shop", "gift"), ("shop", "souvenir")]),
  ("malls", [("shop", "mall")]),
  ("department stores", [("shop", "department_store")]),
  ("furniture stores", [("shop", "furniture")]),
  ("jewelry stores", [("shop", "jewelry")]),
  ("toy stores", [("shop", "toys")]),
  ("pet stores", [("shop", "pet")]),
  ("bike shops", [("shop", "bicycle")]),
  ("car dealerships", [("shop", "car")]),
  ("opticians", [("shop", "optician")]),
  -- Accommodation
  ("hotels", [("tourism", "hotel")]),
  ("hotel", [("tourism", "hotel")]),
  ("motels", [("tourism", "motel")]),
  ("hostels", [("tourism", "hostel")]),
  ("guesthouses", [("tourism", "guest_house"), ("tourism", "bed_and_breakfast")]),
  ("apartments", [("tourism", "apartment")]),
  -- Services
  ("salons", [("shop", "hairdresser"), ("shop", "beauty")]),
  ("hair salons", [("shop", "hairdresser")]),
  ("barbershops", [("shop", "barber")]),
  ("beauty salons", [("shop", "beauty"), ("shop", "nails")]),
  ("spas", [("leisure", "spa"), ("shop", "spa")]),
  ("laundromats", [("shop", "laundry"), ("shop", "launderette")]),
  ("dry cleaning", [("shop", "dry_cleaning")]),
  ("banks", [("amenity", "bank")]),
  ("atms", [("amenity", "atm")]),
  ("post offices", [("amenity", "post_office")]),
  ("car repair", [("shop", "car_repair"), ("shop", "car_parts")]),
  ("gas stations", [("amenity", "fuel")]),
  ("real estate agencies", [("office", "estate_agent")]),
  ("travel agencies", [("office", "travel_agent")]),
  ("car wash", [("amenity", "car_wash")]),
  ("parking", [("amenity", "parking")]),
  ("libraries", [("amenity", "library")]),
  -- Health & Wellness
  ("gyms", [("leisure", "fitness_centre"), ("leisure", "sports_centre")]),
  ("fitness centers", [("leisure", "fitness_centre"), ("leisure", "sports_centre")]),
  ("yoga studios", [("leisure", "fitness_centre"), ("sport", "yoga"), ("leisure", "yoga")]),
  ("doctors", [("amenity", "doctors"), ("amenity", "clinic"), ("healthcare", "doctor")]),
  ("dentists", [("amenity", "dentist"), ("healthcare", "dentist")]),
  ("hospitals", [("amenity", "hospital"), ("healthcare", "hospital")]),
  ("clinics", [("amenity", "clinic"), ("healthcare", "clinic")]),
  ("veterinarians", [("amenity", "veterinary"), ("shop", "pet"), ("healthcare", "veterinary")]),
  -- Entertainment & Leisure
  ("cinemas", [("amenity", "cinema")]),
  ("movie theaters", [("amenity", "cinema")]),
  ("theaters", [("amenity", "theatre")]),
  ("live music venues", [("leisure", "live_music_venue"), ("amenity", "music_venue")]),
  ("museums", [("tourism", "museum")]),
  ("art galleries", [("tourism", "gallery"), ("shop", "art")]),
  ("parks", [("leisure", "park"), ("leisure", "garden"), ("boundary", "national_park"), ("boundary", "protected_area")]),
  ("playgrounds", [("leisure", "playground")]),
  ("bowling alleys", [("leisure", "bowling_alley")]),
  ("arcades", [("leisure", "amusement_arcade")]),
  ("zoos", [("tourism", "zoo")]),
  ("aquariums", [("tourism", "aquarium")]),
  ("stadiums", [("leisure", "stadium"), ("sport", "stadium")]),
  ("beaches", [("natural", "beach"), ("leisure", "beach_resort")]),
  -- Transportation
  ("airports", [("aeroway", "aerodrome"), ("amenity", "airport")]),
  ("train stations", [("railway", "station"), ("public_transport", "station")]),
  ("bus stops", [("highway", "bus_stop"), ("public_transport", "platform")]),
  ("taxi stands", [("amenity", "taxi")]),
  ("ferry terminals", [("amenity", "ferry_terminal")]),
  -- Default / Fallback
  ("", [("amenity", "restaurant"), ("shop", "*")])]

/-- `TAG_MAPPING.get(query_term)`. -/
def tagMappingGet (query_term : String) : Option (List (String × String)) :=
  (TAG_MAPPING.find? (fun p => p.1 = query_term)).map (fun p => p.2)

/-- The tag-mapping branch of `search_osm_places_route` (`app/routes_search.py`
lines 186-198), over an arbitrary lookup result (`TAG_MAPPING.get(query_term)`).
`Except.error` is the 400 BAD_REQUEST response; `Except.ok` is the condition
list the search proceeds with. -/
def resolve_tag_conditions (lookup : Option (List (String × String)))
    (query_term : String) : Except String (List (String × String)) :=
  -- `if not osm_tag_conditions_list:` — falsy means absent or an empty list
  let falsy := match lookup with
    | none => true
    | some l => l.isEmpty
  if falsy then
    if query_term ≠ "" then Except.ok [("name", query_term)]
    else Except.error "Query term is required or a default mapping must exist."
  else Except.ok (lookup.getD [])

/-- The dict produced by `get_coordinates_for_city` on success
(`coordinates_result_dict`, `app/utils.py` lines 53-58). -/
structure Location where
  latitude : Rat
  longitude : Rat
  bounding_box_str : String
  display_name : Option String
deriving DecidableEq

/-- One item of a Nominatim JSON response, as consumed by
`get_coordinates_for_city`.  `lat`/`lon` stand for the already-parsed
`float(item.get("lat"))` values. -/
structure NominatimItem where
  lat : Rat
  lon : Rat
  boundingbox : List String
  display_name : Option String := none
deriving DecidableEq

/-- Response processing of `get_coordinates_for_city` (`app/utils.py`
lines 46-68): take the top item; require a 4-element bounding box; reorder
`bbox[0],bbox[2],bbox[1],bbox[3]` into the Overpass string.  `none` is the
function's `return None` (no data / incomplete bounding box). -/
def get_coordinates_for_city_result (api_response_data_list : List NominatimItem) :
    Option Location :=
  match api_response_data_list with
  | [] => none
  | location_data_item :: _ =>
    match location_data_item.boundingbox with
    | [b0, b1, b2, b3] =>
      some { latitude := location_data_item.lat
             longitude := location_data_item.lon
             bounding_box_str := b0 ++ "," ++ b2 ++ "," ++ b1 ++ "," ++ b3
             display_name := location_data_item.display_name }
    | _ => none

/-- Outcome of the Overpass HTTP exchange inside `fetch_osm_data`. -/
inductive OverpassOutcome where
  | success (elements : List OsmElement)
  | httpError (status : Nat)
  | timeout
  | requestError
  | malformedResponse
deriving DecidableEq

/-- `fetch_osm_data` (`app/utils.py` lines 83-127) as seen by its caller: the
Python function can in principle return `None` (the caller checks for it), so
the model's return type is `Option (List OsmElement)` — but every path of the
source returns a list: `[]` for a missing URL, `[]` for an empty condition
list, the elements on success, and `[]` from every exception handler. -/
def fetch_osm_data (urlConfigured : Bool) (tag_conditions_list : List (String × String))
    (upstream : OverpassOutcome) : Option (List OsmElement) :=
  if ¬ urlConfigured then some []
  else if tag_conditions_list.isEmpty then some []
  else
    match upstream with
    | OverpassOutcome.success elements => some elements
    | OverpassOutcome.httpError _ => some []
    | OverpassOutcome.timeout => some []
    | OverpassOutcome.requestError => some []
    | OverpassOutcome.malformedResponse => some []

/-- Eligibility test for a Google-enrichment attempt inside the route's loop
(`app/routes_search.py` lines 239-242): `osm_name` truthy and
`element.get("lat") or element.get("center", \x7b\x7d).get("lat")` truthy,
same for longitude. -/
def eligibleForEnrichment (element : OsmElement) : Bool :=
  let osm_name := tagsGet element.tags "name"
  let centerLat := element.center.bind (fun c => c.lat)
  let centerLon := element.center.bind (fun c => c.lon)
  let osm_lat := pyOrRat element.lat centerLat
  let osm_lon := pyOrRat element.lon centerLon
  pyTruthyStr osm_name && pyTruthyRat osm_lat && pyTruthyRat osm_lon

/-- Observable outcome of the route's processing loop: the normalized leads in
input order, the final `enriched_count`, and how many calls were made to
`enrich_with_google_places`. -/
structure LoopOut where
  results : List SearchResult
  enrichedCount : Nat
  attempts : Nat
deriving DecidableEq

/-- The per-element loop of `search_osm_places_route` (`app/routes_search.py`
lines 236-262), carrying `enriched_count`.  `enrichFn` abstracts what
`enrich_with_google_places` returns for a given element (the route derives the
call's arguments from the element; the cache and upstream are request-external
state).  `google_enrich_attempt_limit = 5 if enrich_google_str == 'true' else 0`,
and an attempt happens when the flag is set, `enriched_count` is below that
limit, and the element is eligible; `enriched_count` increments only when the
call returns a truthy (non-`None`) record. -/
def enrichLoopGo (enrichFlag : Bool) (enrichFn : OsmElement → Option GoogleEnrichment) :
    List OsmElement → Nat → LoopOut
  | [], enriched_count => { results := [], enrichedCount := enriched_count, attempts := 0 }
  | element :: rest, enriched_count =>
    let google_enrich_attempt_limit := if enrichFlag then 5 else 0
    let attempt := enrichFlag && decide (enriched_count < google_enrich_attempt_limit)
      && eligibleForEnrichment element
    let google_data_for_this_lead := if attempt then enrichFn element else none
    let enriched_count2 :=
      if google_data_for_this_lead.isSome then enriched_count + 1 else enriched_count
    let out := enrichLoopGo enrichFlag enrichFn rest enriched_count2
    { results := normalize_osm_result element google_data_for_this_lead :: out.results
      enrichedCount := out.enrichedCount
      attempts := (if attempt then 1 else 0) + out.attempts }

/-- The route's processing of the filtered elements: it iterates over
`filtered_osm_elements[:backend_processing_limit]` with `enriched_count = 0`
(`backend_processing_limit = limit`). -/
def searchProcess (enrichFlag : Bool) (enrichFn : OsmElement → Option GoogleEnrichment)
    (limit : Nat) (filtered_osm_elements : List OsmElement) : LoopOut :=
  enrichLoopGo enrichFlag enrichFn (filtered_osm_elements.take limit) 0

/-- Stable insert for the descending-score sort: `x` (a later input element)
goes after exactly those already-sorted leads whose score is strictly greater,
so equal-score leads keep their input order. -/
def insertLead (x : SearchResult) : List SearchResult → List SearchResult
  | [] => [x]
  | y :: ys =>
    if calculate_completeness_score y ≤ calculate_completeness_score x then x :: y :: ys
    else y :: insertLead x ys

/-- Model of `processed_leads.sort(key=calculate_completeness_score,
reverse=True)` (`app/routes_search.py` line 272): Python's `list.sort` is a
stable sort, here by descending completeness score with no secondary key. -/
def sortLeads : List SearchResult → List SearchResult
  | [] => []
  | x :: xs => insertLead x (sortLeads xs)

/-- The distinct responses `search_osm_places_route` can produce from the
fetch step onward. -/
inductive SearchOutcome where
  | osmApiError
  | zeroResults
  | results (places : List SearchResult) (count : Nat)
deriving DecidableEq

/-- `search_osm_places_route` from the Overpass fetch result onward
(`app/routes_search.py` lines 212-280): a `None` fetch result is answered with
the 500 OSM_API_ERROR response; otherwise filter, enrich/normalize, sort, and
answer ZERO_RESULTS when nothing survives. -/
def routeOutcomeAfterFetch (osm_elements : Option (List OsmElement)) (enrichFlag : Bool)
    (enrichFn : OsmElement → Option GoogleEnrichment) (limit : Nat) : SearchOutcome :=
  match osm_elements with
  | none => SearchOutcome.osmApiError
  | some els =>
    let filtered_osm_elements := filterElements els
    if filtered_osm_elements.isEmpty then SearchOutcome.zeroResults
    else
      let processed_leads := (searchProcess enrichFlag enrichFn limit filtered_osm_elements).results
      let processed_leads := sortLeads processed_leads
      if processed_leads.isEmpty then SearchOutcome.zeroResults
      else SearchOutcome.results processed_leads processed_leads.length

/-- Cache timeouts from `app/utils.py` lines 8-10. -/
def FIND_PLACE_CACHE_TIMEOUT : Nat := 3600 * 24

/-- Cache full details for 6 hours (`app/utils.py` line 9). -/
def PLACE_DETAILS_CACHE_TIMEOUT : Nat := 3600 * 6

/-- Cache geocoding results for 1 week (`app/utils.py` line 10). -/
def NOMINATIM_CACHE_TIMEOUT : Nat := 3600 * 24 * 7

/-- What `enrich_with_google_places` stores under a `gdetails_v2:` key: either
the `processed_details` dict or the error sentinel
(a dict with a truthy `"error"` entry plus the upstream status). -/
inductive DetailsCacheVal where
  | result (d : GoogleEnrichment)
  | apiError (status : Option String)
deriving DecidableEq

/-- The shared Flask-Caching store as `enrich_with_google_places` uses it.
The Python code keeps both kinds of entries in one store under disjoint key
prefixes (`gfind_pid_v2...` vs `gdetails_v2:...`); the model splits them by
type.  Each entry carries its absolute expiry instant; Flask-Caching's `get`
returns `None` once the TTL has elapsed. -/
structure EnrichCache where
  findC : String → Option (String × Nat)
  detailsC : String → Option (DetailsCacheVal × Nat)

/-- `cache.get` on a find-place key at instant `now`. -/
def cacheGetFind (c : EnrichCache) (k : String) (now : Nat) : Option String :=
  match c.findC k with
  | some (v, expiry) => if now < expiry then some v else none
  | none => none

/-- `cache.get` on a details key at instant `now`. -/
def cacheGetDetails (c : EnrichCache) (k : String) (now : Nat) : Option DetailsCacheVal :=
  match c.detailsC k with
  | some (v, expiry) => if now < expiry then some v else none
  | none => none

/-- `cache.set(k, v, timeout=ttl)` on a find-place key at instant `now`. -/
def cacheSetFind (c : EnrichCache) (k : String) (v : String) (ttl now : Nat) : EnrichCache :=
  { c with findC := fun k2 => if k2 = k then some (v, now + ttl) else c.findC k2 }

/-- `cache.set(k, v, timeout=ttl)` on a details key at instant `now`. -/
def cacheSetDetails (c : EnrichCache) (k : String) (v : DetailsCacheVal) (ttl now : Nat) :
    EnrichCache :=
  { c with detailsC := fun k2 => if k2 = k then some (v, now + ttl) else c.detailsC k2 }

/-- The Google Find Place HTTP exchange: either a JSON response with a
`status` and a candidate list (each candidate's `place_id` may be absent), or
an exception (network/HTTP/parse error). -/
inductive FindPlaceResp where
  | response (status : String) (candidates : List (Option String))
  | exn
deriving DecidableEq

/-- The `result` dict of a Google Place Details response, with the fields
`enrich_with_google_places` reads.  `photos` is the list of each photo's
optional `photo_reference`; `weekday_text` models
`result.get("opening_hours", ...).get("weekday_text")`. -/
structure DetailsResult where
  place_id : Option String := none
  name : Option String := none
  formatted_address : Option String := none
  vicinity : Option String := none
  international_phone_number : Option String := none
  website : Option String := none
  rating : Option Rat := none
  user_ratings_total : Option Int := none
  weekday_text : Option (List String) := none
  photos : List (Option String) := []
  url : Option String := none
  business_status : Option String := none
  types : List String := []
  price_level : Option Int := none
  utc_offset : Option Int := none
deriving DecidableEq

/-- The Google Place Details HTTP exchange: a JSON response with a `status`
and a `result` dict (empty dict when absent), or an exception. -/
inductive DetailsResp where
  | response (status : String) (result : DetailsResult)
  | exn
deriving DecidableEq

/-- `.lower().strip().replace(" ", "_")` applied to a key part. -/
def pyNormKeyPart (s : String) : String :=
  (s.toLower.trim).replace " " "_"

/-- `str(round(q, 3))`: round to 3 decimals.  The decimal text rendering of
Python is abstracted by `toString` on the rounded rational; no claim depends
on the exact text, only on the key being a deterministic function of the
rounded coordinates. -/
def roundStr3 (q : Rat) : String :=
  toString (((round (q * 1000) : Int) : Rat) / 1000)

/-- The find-place cache key (`app/utils.py` lines 148-154): the parts list,
then `":".join(part for part in parts if part)`. -/
def mk_find_place_cache_key (business_name : String) (address : Option String)
    (latitude longitude : Option Rat) : String :=
  let parts := ["gfind_pid_v2",
    pyNormKeyPart business_name,
    (((address.getD "").toLower.trim).replace " " "_").replace "," "",
    (match latitude with | some v => roundStr3 v | none => "none"),
    (match longitude with | some v => roundStr3 v | none => "none")]
  String.intercalate ":" (parts.filter (fun part => part ≠ ""))

/-- What a run of `enrich_with_google_places` produces: its return value, the
cache afterwards, and how many Find Place / Place Details upstream calls it
issued. -/
structure EnrichResult where
  value : Option GoogleEnrichment
  cache : EnrichCache
  findCalls : Nat
  detailsCalls : Nat

/-- Stage 1 of `enrich_with_google_places` when no `known_place_id` is given
(`app/utils.py` lines 147-184): consult the find-place cache, else call the
Find Place upstream once.  Returns the place id (if any), the cache, and the
number of Find Place calls.  A stage-1 exception does `return None`; since the
cache is unchanged there and the caller also returns `None` for a missing
place id, the model folds that early return into a `none` place id. -/
def enrich_stage1 (business_name : String) (address : Option String)
    (latitude longitude : Option Rat) (findResp : FindPlaceResp)
    (c : EnrichCache) (now : Nat) : Option String × EnrichCache × Nat :=
  let find_place_cache_key := mk_find_place_cache_key business_name address latitude longitude
  -- `if cached_place_id:` — only a truthy (non-empty) cached value short-circuits
  let cached_place_id : Option String :=
    match cacheGetFind c find_place_cache_key now with
    | some pid => if pid = "" then none else some pid
    | none => none
  match cached_place_id with
  | some pid => (some pid, c, 0)
  | none =>
    match findResp with
    | FindPlaceResp.exn => (none, c, 1)
    | FindPlaceResp.response status candidates =>
      if status = "OK" ∧ candidates ≠ [] then
        let place_id_to_use := (candidates.head?).getD none
        match place_id_to_use with
        | some pid =>
          -- `if place_id_to_use and use_caching: cache.set(...)`
          if pid = "" then (some pid, c, 1)
          else (some pid, cacheSetFind c find_place_cache_key pid FIND_PLACE_CACHE_TIMEOUT now, 1)
        | none => (none, c, 1)
      else (none, c, 1)

/-- Stage 2 of `enrich_with_google_places` (`app/utils.py` lines 190-243):
details cache lookup — an error sentinel yields `None`, a hit yields the
cached record — else one Place Details call; on status `"OK"` build and cache
`processed_details` for `PLACE_DETAILS_CACHE_TIMEOUT`, on any other status
cache the error sentinel for 300 seconds and return `None`, on an exception
return `None` without writing the cache. -/
def enrich_stage2 (api_key : String) (place_id_to_use : String) (detailsResp : DetailsResp)
    (c : EnrichCache) (now : Nat) (findCalls : Nat) : EnrichResult :=
  let details_cache_key := "gdetails_v2:" ++ place_id_to_use
  match cacheGetDetails c details_cache_key now with
  | some (DetailsCacheVal.apiError _) =>
    { value := none, cache := c, findCalls := findCalls, detailsCalls := 0 }
  | some (DetailsCacheVal.result d) =>
    { value := some d, cache := c, findCalls := findCalls, detailsCalls := 0 }
  | none =>
    match detailsResp with
    | DetailsResp.exn =>
      { value := none, cache := c, findCalls := findCalls, detailsCalls := 1 }
    | DetailsResp.response status result =>
      if status = "OK" then
        let photo_url : Option String :=
          match result.photos with
          | [] => none
          | photo0 :: _ =>
            match photo0 with
            | some photo_ref =>
              if photo_ref = "" then none
              else some ("https://maps.googleapis.com/maps/api/place/photo?maxwidth=800&photoreference="
                ++ photo_ref ++ "&key=" ++ api_key)
            | none => none
        let processed_details : GoogleEnrichment :=
          { google_place_id := result.place_id
            name_google := result.name
            address_google :=
              match result.formatted_address with
              | some v => some v
              | none => result.vicinity
            phone_number_google := result.international_phone_number
            website_google := result.website
            rating_google := result.rating
            user_ratings_total_google := result.user_ratings_total
            opening_hours_google := result.weekday_text
            photo_url_google := photo_url
            google_maps_url := result.url
            business_status_google := result.business_status
            types_google := result.types
            price_level_google := result.price_level
            utc_offset_google := result.utc_offset }
        { value := some processed_details
          cache := cacheSetDetails c details_cache_key
            (DetailsCacheVal.result processed_details) PLACE_DETAILS_CACHE_TIMEOUT now
          findCalls := findCalls
          detailsCalls := 1 }
      else
        { value := none
          cache := cacheSetDetails c details_cache_key
            (DetailsCacheVal.apiError (some status)) 300 now
          findCalls := findCalls
          detailsCalls := 1 }

/-- `enrich_with_google_places` (`app/utils.py` lines 130-243).  The upstream
HTTP exchanges are inputs (`findResp`, `detailsResp`); `now` is the instant of
the run.  The function is total: every Python path that raises is caught
inside the source and returns `None`. -/
def enrich_with_google_places (api_key : Option String) (business_name : String)
    (address : Option String) (latitude longitude : Option Rat)
    (known_place_id : Option String) (findResp : FindPlaceResp)
    (detailsResp : DetailsResp) (c : EnrichCache) (now : Nat) : EnrichResult :=
  match api_key with
  | none => { value := none, cache := c, findCalls := 0, detailsCalls := 0 }
  | some key =>
    let stage1 : Option String × EnrichCache × Nat :=
      match known_place_id with
      | some pid => (some pid, c, 0)
      | none => enrich_stage1 business_name address latitude longitude findResp c now
    let place_id_to_use := stage1.1
    let c1 := stage1.2.1
    let findCalls := stage1.2.2
    -- `if not place_id_to_use: return None` — None or empty string
    match place_id_to_use with
    | none => { value := none, cache := c1, findCalls := findCalls, detailsCalls := 0 }
    | some pid =>
      if pid = "" then { value := none, cache := c1, findCalls := findCalls, detailsCalls := 0 }
      else enrich_stage2 key pid detailsResp c1 now findCalls

/-! ### Concrete fixtures used by counterexamples and witnesses -/

/-- A raw element with no `name` tag at all. -/
def elNoName : OsmElement := { type := "node", id := 1 }

/-- A raw element carrying only a real name (plus coordinates). -/
def elSolo : OsmElement :=
  { type := "node", id := 2, lat := some 10, lon := some 20, tags := [("name", "Solo")] }

/-- A raw element with a name tag, used together with `geFull`. -/
def elFull : OsmElement :=
  { type := "node", id := 3, lat := some 1, lon := some 2, tags := [("name", "Old")] }

/-- An enrichment record filling every field the completeness claim lists:
real name, address, phone, website, photo, one category, rating. -/
def geFull : GoogleEnrichment :=
  { google_place_id := some "gp1", name_google := some "Nice Place",
    address_google := some "1 Main St", phone_number_google := some "+1 555 0000",
    website_google := some "http://example.com", rating_google := some 4,
    photo_url_google := some "http://example.com/photo.jpg",
    types_google := ["restaurant"] }

/-- The fully-populated normalized result. -/
def leadFull : SearchResult := normalize_osm_result elFull (some geFull)

/-- The name-only normalized result. -/
def leadSolo : SearchResult := normalize_osm_result elSolo none

/-- A raw element with both a name and an `opening_hours` tag. -/
def elOH : OsmElement :=
  { type := "node", id := 4, tags := [("name", "A"), ("opening_hours", "9am-5pm")] }

/-- An enrichment record that carries a name but no opening hours. -/
def geNoOH : GoogleEnrichment := { name_google := some "B" }

/-! ### C1 — completeness-score weights -/

/-- C1 (counterexample): a normalized result carrying a real name, address,
phone, website, photo, one category and a rating scores 12, not the 15 the
claim predicts — the code weighs only name/address/phone/website. -/
theorem completeness_score_counterexample :
    leadFull.name ≠ "" ∧ leadFull.name ≠ "Unknown Venue" ∧ leadFull.address.isSome
    ∧ leadFull.phone_number.isSome ∧ leadFull.website.isSome ∧ leadFull.photo_url.isSome
    ∧ leadFull.types ≠ [] ∧ leadFull.rating.isSome
    ∧ calculate_completeness_score leadFull = 12 ∧ (12 : Nat) ≠ 15 := by
  decide

/-- C1 (amended): the completeness score sums fixed weights for presence of a
real (non-placeholder) name (+5), address (+3), phone (+2) and website (+2)
only; photo, category list and rating contribute nothing.  A result with all
seven fields scores 12, and a result with only a real name scores 5. -/
theorem completeness_score_weights (lead : SearchResult) :
    calculate_completeness_score lead =
      (if lead.name ≠ "" ∧ lead.name ≠ "Unknown Venue" then 5 else 0)
      + (if pyTruthyStr lead.address then 3 else 0)
      + (if pyTruthyStr lead.phone_number then 2 else 0)
      + (if pyTruthyStr lead.website then 2 else 0)
    ∧ calculate_completeness_score leadFull = 12
    ∧ calculate_completeness_score leadSolo = 5 := by
  refine ⟨?_, by decide, by decide⟩
  simp only [calculate_completeness_score]
  split_ifs <;> omega

/-! ### C5 — bounding-box reorder -/

/-- C5: for a geocoder response whose bounding box lists (south, north, west,
east), the produced Overpass-order string is "south,west,north,east"; in
particular (1,3,2,4) yields "1,2,3,4". -/
theorem bbox_reorder :
    (∀ (s n w e : String) (la lo : Rat) (dn : Option String),
      get_coordinates_for_city_result
          [{ lat := la, lon := lo, boundingbox := [s, n, w, e], display_name := dn }]
        = some { latitude := la, longitude := lo,
                 bounding_box_str := s ++ "," ++ w ++ "," ++ n ++ "," ++ e,
                 display_name := dn })
    ∧ (get_coordinates_for_city_result
          [{ lat := 0, lon := 0, boundingbox := ["1", "3", "2", "4"], display_name := none }]).map
        Location.bounding_box_str = some "1,2,3,4" := by
  exact ⟨fun s n w e la lo dn => rfl, rfl⟩

/-! ### C6 — category fallback -/

/-- C6: a non-empty query term with no `TAG_MAPPING` entry resolves to exactly
the single condition `("name", query_term)` and the search proceeds with it;
an empty query term whose lookup yields no default entry is answered with the
400 BAD_REQUEST error instead. -/
theorem category_fallback :
    (∀ q : String, q ≠ "" → tagMappingGet q = none →
      resolve_tag_conditions (tagMappingGet q) q = Except.ok [("name", q)])
    ∧ resolve_tag_conditions none ""
        = Except.error "Query term is required or a default mapping must exist." := by
  constructor
  · intro q hq hm
    rw [hm]
    simp [resolve_tag_conditions, hq]
  · rfl

/-- Witness for `category_fallback` at the spec's own example, the unmapped
term "taco stand". -/
theorem category_fallback_witness :
    resolve_tag_conditions (tagMappingGet "taco stand") "taco stand"
      = Except.ok [("name", "taco stand")] :=
  category_fallback.1 "taco stand" (by decide) (by decide)

/-! ### C10 — enrichment with no API key configured -/

/-- C10: with no Google Places API key configured, `enrich_with_google_places`
returns `None` for every input, makes no upstream call of either kind, and
leaves the cache untouched (the source returns before any cache access). -/
theorem enrich_no_api_key (business_name : String) (address : Option String)
    (latitude longitude : Option Rat) (known_place_id : Option String)
    (findResp : FindPlaceResp) (detailsResp : DetailsResp) (c : EnrichCache) (now : Nat) :
    enrich_with_google_places none business_name address latitude longitude known_place_id
        findResp detailsResp c now
      = { value := none, cache := c, findCalls := 0, detailsCalls := 0 } :=
  rfl

/-! ### C3 — field precedence in normalization -/

/-- C3 (counterexample): the claimed per-field precedence fails for opening
hours.  With an enrichment record present whose `opening_hours_google` is
null, the result's `opening_hours` is `None` even though the element's own
`opening_hours` tag has a value — the OSM tag is consulted only when no
enrichment record exists at all. -/
theorem opening_hours_precedence_counterexample :
    geNoOH.opening_hours_google = none
    ∧ tagsGet elOH.tags "opening_hours" = some "9am-5pm"
    ∧ (normalize_osm_result elOH (some geNoOH)).opening_hours = none
    ∧ (normalize_osm_result elOH none).opening_hours = some (Sum.inr "9am-5pm")
    ∧ (normalize_osm_result elOH (some geNoOH)).opening_hours
        ≠ (normalize_osm_result elOH none).opening_hours := by
  decide

/-- C3 (amended): the per-field precedence — a truthy enrichment value wins,
otherwise the field equals what OSM-only normalization produces — holds for
name, address, website, phone and the category list (for strings, "truthy"
means present and non-empty; for the category list, non-empty).  For opening
hours the rule is different: when an enrichment record is present its value is
used even when null, so a null enrichment value yields null rather than the
OSM tag value. -/
theorem normalize_field_precedence (el : OsmElement) (g : GoogleEnrichment) :
    (∀ s, g.name_google = some s → s ≠ "" →
      (normalize_osm_result el (some g)).name = s)
    ∧ ((g.name_google = none ∨ g.name_google = some "") →
      (normalize_osm_result el (some g)).name = (normalize_osm_result el none).name)
    ∧ (∀ s, g.address_google = some s → s ≠ "" →
      (normalize_osm_result el (some g)).address = some s)
    ∧ ((g.address_google = none ∨ g.address_google = some "") →
      (normalize_osm_result el (some g)).address = (normalize_osm_result el none).address)
    ∧ (∀ s, g.website_google = some s → s ≠ "" →
      (normalize_osm_result el (some g)).website = some s)
    ∧ ((g.website_google = none ∨ g.website_google = some "") →
      (normalize_osm_result el (some g)).website = (normalize_osm_result el none).website)
    ∧ (∀ s, g.phone_number_google = some s → s ≠ "" →
      (normalize_osm_result el (some g)).phone_number = some s)
    ∧ ((g.phone_number_google = none ∨ g.phone_number_google = some "") →
      (normalize_osm_result el (some g)).phone_number
        = (normalize_osm_result el none).phone_number)
    ∧ (g.types_google ≠ [] → (normalize_osm_result el (some g)).types = g.types_google)
    ∧ (g.types_google = [] →
      (normalize_osm_result el (some g)).types = (normalize_osm_result el none).types)
    ∧ (g.opening_hours_google = none →
      (normalize_osm_result el (some g)).opening_hours = none) := by
  refine ⟨?_, ?_, ?_, ?_, ?_, ?_, ?_, ?_, ?_, ?_, ?_⟩
  · intro s hs hne
    simp [normalize_osm_result, pyOrStrD, hs, hne]
  · rintro (h | h) <;> simp [normalize_osm_result, pyOrStrD, h]
  · intro s hs hne
    simp [normalize_osm_result, pyOrStr, hs, hne]
  · rintro (h | h) <;> simp [normalize_osm_result, pyOrStr, h]
  · intro s hs hne
    simp [normalize_osm_result, pyOrStr, hs, hne]
  · rintro (h | h) <;> simp [normalize_osm_result, pyOrStr, h]
  · intro s hs hne
    simp [normalize_osm_result, pyOrStr, hs, hne]
  · rintro (h | h) <;> simp [normalize_osm_result, pyOrStr, h]
  · intro h
    simp [normalize_osm_result, List.isEmpty_iff, h]
  · intro h
    simp [normalize_osm_result, h]
  · intro h
    simp [normalize_osm_result, h]

/-- Witness for `normalize_field_precedence` at the spec's own example: tag
`name=OldName` plus enrichment `name_google=NewName` yields "NewName", and the
same element without enrichment keeps "OldName". -/
theorem normalize_field_precedence_witness :
    (normalize_osm_result { type := "node", id := 7, tags := [("name", "OldName")] }
      (some { name_google := some "NewName" })).name = "NewName" :=
  (normalize_field_precedence { type := "node", id := 7, tags := [("name", "OldName")] }
    { name_google := some "NewName" }).1 "NewName" rfl (by decide)

/-! ### C4 — total place-source failure -/

/-- C4 (counterexample): on an Overpass HTTP error the fetch returns an empty
list (not `None`), so the orchestrator answers ZERO_RESULTS — the outcome is
not the distinguishable upstream-error response the claim requires. -/
theorem osm_failure_counterexample :
    fetch_osm_data true [("amenity", "restaurant")] (OverpassOutcome.httpError 504) = some []
    ∧ routeOutcomeAfterFetch
        (fetch_osm_data true [("amenity", "restaurant")] (OverpassOutcome.httpError 504))
        false (fun _ => none) 50 = SearchOutcome.zeroResults
    ∧ SearchOutcome.zeroResults ≠ SearchOutcome.osmApiError := by
  refine ⟨rfl, rfl, by decide⟩

/-- C4 (amended): `fetch_osm_data` never returns `None` — every failure path
returns an empty list — so on any total place-source failure the orchestrator
returns the ZERO_RESULTS outcome; its 500 OSM_API_ERROR branch (reserved for a
`None` fetch result) is unreachable. -/
theorem osm_failure_degrades_to_zero_results (urlConfigured : Bool)
    (conds : List (String × String)) (up : OverpassOutcome) :
    fetch_osm_data urlConfigured conds up ≠ none
    ∧ ((∀ els, up ≠ OverpassOutcome.success els) →
      ∀ (flag : Bool) (f : OsmElement → Option GoogleEnrichment) (lim : Nat),
        routeOutcomeAfterFetch (fetch_osm_data urlConfigured conds up) flag f lim
          = SearchOutcome.zeroResults) := by
  constructor
  · unfold fetch_osm_data
    split
    · simp
    · split
      · simp
      · cases up <;> simp
  · intro hfail flag f lim
    have hempty : fetch_osm_data urlConfigured conds up = some [] := by
      unfold fetch_osm_data
      split
      · rfl
      · split
        · rfl
        · cases up with
          | success els => exact absurd rfl (hfail els)
          | httpError s => rfl
          | timeout => rfl
          | requestError => rfl
          | malformedResponse => rfl
    rw [hempty]
    rfl

/-- Witness for `osm_failure_degrades_to_zero_results` at a concrete timeout
failure. -/
theorem osm_failure_degrades_to_zero_results_witness :
    routeOutcomeAfterFetch
        (fetch_osm_data true [("amenity", "restaurant")] OverpassOutcome.timeout)
        true (fun _ => none) 50 = SearchOutcome.zeroResults :=
  (osm_failure_degrades_to_zero_results true [("amenity", "restaurant")]
    OverpassOutcome.timeout).2 (by intro els h; simp at h) true (fun _ => none) 50

/-! ### C2 — enrichment budget -/

/-- `enriched_count` never exceeds 5: the loop only increments it under the
guard `enriched_count < google_enrich_attempt_limit` and the limit is 5 or 0. -/
theorem enrichLoopGo_enrichedCount_le (flag : Bool)
    (f : OsmElement → Option GoogleEnrichment) :
    ∀ (L : List OsmElement) (count : Nat), count ≤ 5 →
      (enrichLoopGo flag f L count).enrichedCount ≤ 5 := by
  intro L
  induction L with
  | nil => intro count h; simpa [enrichLoopGo] using h
  | cons el rest ih =>
    intro count h
    by_cases hA : (flag && decide (count < if flag then 5 else 0)
        && eligibleForEnrichment el) = true
    · by_cases hS : (f el).isSome
      · have hlt : count < (if flag then 5 else 0) := by
          have := hA
          simp only [Bool.and_eq_true, decide_eq_true_eq] at this
          exact this.1.2
        have hcount : count + 1 ≤ 5 := by
          by_cases hf : flag
          · simp [hf] at hlt
            omega
          · simp [hf] at hlt
        simpa [enrichLoopGo, hA, hS] using ih (count + 1) hcount
      · simpa [enrichLoopGo, hA, hS] using ih count h
    · simpa [enrichLoopGo, hA] using ih count h

/-- When every eligible element's enrichment call succeeds, attempts advance
the counter one-for-one, so the number of attempts is bounded by the budget
headroom. -/
theorem enrichLoopGo_attempts_le (flag : Bool)
    (f : OsmElement → Option GoogleEnrichment) :
    ∀ (L : List OsmElement) (count : Nat), count ≤ 5 →
      (∀ el ∈ L, eligibleForEnrichment el = true → (f el).isSome) →
      (enrichLoopGo flag f L count).attempts + count ≤ 5 := by
  intro L
  induction L with
  | nil => intro count h _; simpa [enrichLoopGo] using h
  | cons el rest ih =>
    intro count h hall
    have hrest : ∀ e ∈ rest, eligibleForEnrichment e = true → (f e).isSome :=
      fun e he => hall e (List.mem_cons_of_mem el he)
    by_cases hA : (flag && decide (count < if flag then 5 else 0)
        && eligibleForEnrichment el) = true
    · have hparts := hA
      simp only [Bool.and_eq_true, decide_eq_true_eq] at hparts
      have hS : (f el).isSome := hall el (List.mem_cons_self el rest) hparts.2
      have hlt : count < (if flag then 5 else 0) := hparts.1.2
      have hcount : count + 1 ≤ 5 := by
        by_cases hf : flag
        · simp [hf] at hlt
          omega
        · simp [hf] at hlt
      have := ih (count + 1) hcount hrest
      simp [enrichLoopGo, hA, hS]
      omega
    · have := ih count h hrest
      simp [enrichLoopGo, hA]
      omega

/-- C2 (amended): the fixed per-request budget of 5 caps *successful*
enrichments, not attempts: `enriched_count` counts only calls that returned a
record, and the attempt guard compares it to the limit.  So at most 5 elements
per request are successfully enriched, and when every attempted call succeeds
at most 5 calls are made; but a failing call does not consume the budget (see
the counterexample, where 6 failing calls are made). -/
theorem enrichment_budget_caps_successes (flag : Bool)
    (f : OsmElement → Option GoogleEnrichment) (limit : Nat) (els : List OsmElement) :
    (searchProcess flag f limit els).enrichedCount ≤ 5
    ∧ ((∀ el ∈ els, eligibleForEnrichment el = true → (f el).isSome) →
      (searchProcess flag f limit els).attempts ≤ 5) := by
  constructor
  · exact enrichLoopGo_enrichedCount_le flag f (els.take limit) 0 (by omega)
  · intro h
    have := enrichLoopGo_attempts_le flag f (els.take limit) 0 (by omega)
      (fun el hel he => h el (List.take_subset limit els hel) he)
    simp only [searchProcess]
    omega

/-- A fourth eligible element for the budget witness. -/
def elD : OsmElement :=
  { type := "node", id := 11, lat := some 3, lon := some 4, tags := [("name", "D")] }

/-- Witness for `enrichment_budget_caps_successes`: with an always-succeeding
enrichment over eligible elements, at most 5 calls are made. -/
theorem enrichment_budget_caps_successes_witness :
    (searchProcess true (fun _ => some geFull) 50 [elSolo, elFull, elOH, elD]).attempts ≤ 5 :=
  (enrichment_budget_caps_successes true (fun _ => some geFull) 50
    [elSolo, elFull, elOH, elD]).2 (fun _ _ _ => rfl)

/-- Six eligible raw elements (real name, non-zero coordinates). -/
def sixEls : List OsmElement :=
  [{ type := "node", id := 21, lat := some 1, lon := some 2, tags := [("name", "A")] },
   { type := "node", id := 22, lat := some 1, lon := some 2, tags := [("name", "B")] },
   { type := "node", id := 23, lat := some 1, lon := some 2, tags := [("name", "C")] },
   { type := "node", id := 24, lat := some 1, lon := some 2, tags := [("name", "D")] },
   { type := "node", id := 25, lat := some 1, lon := some 2, tags := [("name", "E")] },
   { type := "node", id := 26, lat := some 1, lon := some 2, tags := [("name", "F")] }]

/-- C2 (counterexample): with enrichment enabled and six filtered elements
whose enrichment calls all fail (return `None`), the route makes six calls to
the enrichment client — the number of enrichment attempts exceeds the claimed
hard cap of 5, because only *successful* calls advance `enriched_count`. -/
theorem enrichment_budget_counterexample :
    5 < sixEls.length
    ∧ filterElements sixEls = sixEls
    ∧ (searchProcess true (fun _ => none) 50 sixEls).attempts = 6
    ∧ ¬ (searchProcess true (fun _ => none) 50 sixEls).attempts ≤ 5 := by
  decide

/-! ### C8 — missing-name filter and result invariants -/

/-- Every result the loop emits is the normalization of some element of its
input list (with whatever enrichment that element got). -/
theorem enrichLoopGo_results_spec (flag : Bool)
    (f : OsmElement → Option GoogleEnrichment) :
    ∀ (L : List OsmElement) (count : Nat) (r : SearchResult),
      r ∈ (enrichLoopGo flag f L count).results →
      ∃ el ge, el ∈ L ∧ r = normalize_osm_result el ge := by
  intro L
  induction L with
  | nil => intro count r hr; simp [enrichLoopGo] at hr
  | cons el rest ih =>
    intro count r hr
    simp only [enrichLoopGo, List.mem_cons] at hr
    rcases hr with hr | hr
    · exact ⟨el, _, List.mem_cons_self el rest, hr⟩
    · obtain ⟨e, g, he, hg⟩ := ih _ r hr
      exact ⟨e, g, List.mem_cons_of_mem el he, hg⟩

/-- A string `pyOrStrD` defaulted with a non-empty string is non-empty. -/
theorem pyOrStrD_ne_empty (x : Option String) (d : String) (hd : d ≠ "") :
    pyOrStrD x d ≠ "" := by
  cases x with
  | none => simpa [pyOrStrD] using hd
  | some s =>
    by_cases hs : s = "" <;> simp [pyOrStrD, hs, hd]

/-- C8: an element lacking a `name` tag is excluded from the filtered set
regardless of its other tags; and every result the search's processing loop
produces from the filtered set has a non-empty name and the `type/id` OSM
source identifier of the element that produced it. -/
theorem missing_name_filter_and_result_invariants :
    (∀ (el : OsmElement) (els : List OsmElement),
      tagsGet el.tags "name" = none → el ∉ filterElements els)
    ∧ (∀ (flag : Bool) (f : OsmElement → Option GoogleEnrichment) (limit : Nat)
        (els : List OsmElement) (r : SearchResult),
      r ∈ (searchProcess flag f limit (filterElements els)).results →
      r.name ≠ "" ∧ ∃ el, el ∈ els ∧ r.osm_id = el.type ++ "/" ++ toString el.id) := by
  constructor
  · intro el els h hmem
    rw [filterElements, List.mem_filter] at hmem
    have := hmem.2
    rw [is_element_sufficiently_detailed, h] at this
    simp [pyTruthyStr] at this
  · intro flag f limit els r hr
    obtain ⟨el, ge, hel, hre⟩ := enrichLoopGo_results_spec flag f
      ((filterElements els).take limit) 0 r hr
    have helf : el ∈ filterElements els := List.take_subset limit (filterElements els) hel
    have hdet : is_element_sufficiently_detailed el = true :=
      (List.mem_filter.mp helf).2
    have hname : tagsGetD el.tags "name" "Unknown Venue" ≠ "" := by
      rw [is_element_sufficiently_detailed] at hdet
      cases hx : tagsGet el.tags "name" with
      | none => rw [hx] at hdet; simp [pyTruthyStr] at hdet
      | some s =>
        rw [hx] at hdet
        simp only [pyTruthyStr, ne_eq, decide_eq_true_eq] at hdet
        simpa [tagsGetD, hx] using hdet
    constructor
    · rw [hre]
      exact pyOrStrD_ne_empty _ _ hname
    · exact ⟨el, (List.mem_filter.mp helf).1, by rw [hre]; rfl⟩

/-- Witness for `missing_name_filter_and_result_invariants`: a tagless element
is filtered out, and a concrete loop result keeps a non-empty name. -/
theorem missing_name_filter_and_result_invariants_witness :
    elNoName ∉ filterElements [elNoName, elSolo]
    ∧ (normalize_osm_result elSolo none).name ≠ "" :=
  ⟨missing_name_filter_and_result_invariants.1 elNoName [elNoName, elSolo] rfl,
   (missing_name_filter_and_result_invariants.2 false (fun _ => none) 50 [elSolo]
     (normalize_osm_result elSolo none) (by decide)).1⟩

/-! ### C9 — descending sort, stable on ties -/

/-- Membership in `insertLead`. -/
theorem mem_insertLead (x a : SearchResult) :
    ∀ l : List SearchResult, a ∈ insertLead x l ↔ a = x ∨ a ∈ l := by
  intro l
  induction l with
  | nil => simp [insertLead]
  | cons y ys ih =>
    by_cases hc : calculate_completeness_score y ≤ calculate_completeness_score x
    · simp [insertLead, hc]
    · simp only [insertLead, hc, if_false, List.mem_cons, ih]
      tauto

/-- `insertLead` preserves the descending-score pairwise invariant. -/
theorem pairwise_insertLead (x : SearchResult) :
    ∀ l : List SearchResult,
      List.Pairwise (fun a b => calculate_completeness_score b ≤ calculate_completeness_score a) l →
      List.Pairwise (fun a b => calculate_completeness_score b ≤ calculate_completeness_score a)
        (insertLead x l) := by
  intro l
  induction l with
  | nil => intro _; simp [insertLead]
  | cons y ys ih =>
    intro hp
    rw [List.pairwise_cons] at hp
    by_cases hc : calculate_completeness_score y ≤ calculate_completeness_score x
    · rw [insertLead, if_pos hc, List.pairwise_cons]
      refine ⟨?_, List.pairwise_cons.mpr hp⟩
      intro b hb
      rcases List.mem_cons.mp hb with hb | hb
      · rw [hb]; exact hc
      · exact le_trans (hp.1 b hb) hc
    · rw [insertLead, if_neg hc, List.pairwise_cons]
      refine ⟨?_, ih hp.2⟩
      intro b hb
      rcases (mem_insertLead x b ys).mp hb with hb | hb
      · rw [hb]; omega
      · exact hp.1 b hb

/-- `sortLeads` output is pairwise descending in completeness score. -/
theorem sortLeads_pairwise (l : List SearchResult) :
    List.Pairwise (fun a b => calculate_completeness_score b ≤ calculate_completeness_score a)
      (sortLeads l) := by
  induction l with
  | nil => simp [sortLeads]
  | cons x xs ih => exact pairwise_insertLead x (sortLeads xs) ih

/-- Filtering a score class through a cons whose head is in the class. -/
theorem filter_score_cons_pos (s : Nat) (a : SearchResult) (l : List SearchResult)
    (h : (calculate_completeness_score a == s) = true) :
    (a :: l).filter (fun b => calculate_completeness_score b == s)
      = a :: l.filter (fun b => calculate_completeness_score b == s) :=
  List.filter_cons_of_pos h

/-- Filtering a score class through a cons whose head is outside the class. -/
theorem filter_score_cons_neg (s : Nat) (a : SearchResult) (l : List SearchResult)
    (h : ¬ (calculate_completeness_score a == s) = true) :
    (a :: l).filter (fun b => calculate_completeness_score b == s)
      = l.filter (fun b => calculate_completeness_score b == s) :=
  List.filter_cons_of_neg h

/-- `insertLead` places the new lead in front of the equal-score class it
belongs to and leaves every score class otherwise untouched. -/
theorem filter_insertLead (x : SearchResult) (s : Nat) :
    ∀ l : List SearchResult,
      (insertLead x l).filter (fun a => calculate_completeness_score a == s)
        = if calculate_completeness_score x == s
          then x :: l.filter (fun a => calculate_completeness_score a == s)
          else l.filter (fun a => calculate_completeness_score a == s) := by
  intro l
  induction l with
  | nil =>
    by_cases hx : (calculate_completeness_score x == s) = true
    · simp [insertLead, List.filter_cons, hx]
    · simp [insertLead, List.filter_cons, hx]
  | cons y ys ih =>
    rw [insertLead]
    by_cases hc : calculate_completeness_score y ≤ calculate_completeness_score x
    · rw [if_pos hc]
      by_cases hx : (calculate_completeness_score x == s) = true
      · rw [if_pos hx, filter_score_cons_pos s x (y :: ys) hx]
      · rw [if_neg hx, filter_score_cons_neg s x (y :: ys) hx]
    · rw [if_neg hc]
      by_cases hy : (calculate_completeness_score y == s) = true
      · -- y keeps a score strictly above x's, so if x belongs to class s, y cannot
        have hx : ¬ (calculate_completeness_score x == s) = true := by
          simp only [beq_iff_eq] at hy ⊢
          omega
        rw [filter_score_cons_pos s y (insertLead x ys) hy, ih, if_neg hx, if_neg hx,
          filter_score_cons_pos s y ys hy]
      · rw [filter_score_cons_neg s y (insertLead x ys) hy, ih]
        by_cases hx : (calculate_completeness_score x == s) = true
        · rw [if_pos hx, if_pos hx, filter_score_cons_neg s y ys hy]
        · rw [if_neg hx, if_neg hx, filter_score_cons_neg s y ys hy]

/-- Every equal-score class of the sorted list equals the corresponding class
of the input, in input order. -/
theorem filter_sortLeads (s : Nat) :
    ∀ l : List SearchResult,
      (sortLeads l).filter (fun a => calculate_completeness_score a == s)
        = l.filter (fun a => calculate_completeness_score a == s) := by
  intro l
  induction l with
  | nil => rfl
  | cons x xs ih =>
    rw [sortLeads, filter_insertLead]
    by_cases hx : (calculate_completeness_score x == s) = true
    · rw [if_pos hx, ih, filter_score_cons_pos s x xs hx]
    · rw [if_neg hx, ih, filter_score_cons_neg s x xs hx]

/-- `insertLead` is a permutation of consing. -/
theorem insertLead_perm (x : SearchResult) :
    ∀ l : List SearchResult, (insertLead x l).Perm (x :: l) := by
  intro l
  induction l with
  | nil => simp [insertLead]
  | cons y ys ih =>
    by_cases hc : calculate_completeness_score y ≤ calculate_completeness_score x
    · rw [insertLead, if_pos hc]
    · rw [insertLead, if_neg hc]
      exact ((ih.cons y).trans (List.Perm.swap x y ys))

/-- `sortLeads` permutes its input. -/
theorem sortLeads_perm : ∀ l : List SearchResult, (sortLeads l).Perm l := by
  intro l
  induction l with
  | nil => simp [sortLeads]
  | cons x xs ih => exact (insertLead_perm x (sortLeads xs)).trans (ih.cons x)

/-- C9: sorting the processed leads orders them by descending completeness
score, is a permutation of the input, and is stable: every equal-score class
appears in the sorted output exactly in its original input order (no secondary
key). -/
theorem sort_descending_stable (l : List SearchResult) :
    List.Pairwise (fun a b => calculate_completeness_score b ≤ calculate_completeness_score a)
      (sortLeads l)
    ∧ (∀ s : Nat, (sortLeads l).filter (fun a => calculate_completeness_score a == s)
        = l.filter (fun a => calculate_completeness_score a == s))
    ∧ (sortLeads l).Perm l :=
  ⟨sortLeads_pairwise l, fun s => filter_sortLeads s l, sortLeads_perm l⟩

/-! ### C7 — negative caching of failed details lookups -/

/-- With a known place id, `enrich_with_google_places` skips stage 1 entirely. -/
theorem enrich_known_pid (key pid : String) (hpid : pid ≠ "") (bn : String)
    (addr : Option String) (la lo : Option Rat) (fr : FindPlaceResp) (dr : DetailsResp)
    (c : EnrichCache) (now : Nat) :
    enrich_with_google_places (some key) bn addr la lo (some pid) fr dr c now
      = enrich_stage2 key pid dr c now 0 := by
  simp [enrich_with_google_places, hpid]

/-- Reading back the details key just written. -/
theorem cacheGetDetails_set_same (c : EnrichCache) (k : String) (v : DetailsCacheVal)
    (ttl now t : Nat) :
    cacheGetDetails (cacheSetDetails c k v ttl now) k t
      = if t < now + ttl then some v else none := by
  simp [cacheGetDetails, cacheSetDetails]

/-- A details-cache miss followed by a non-"OK" upstream status: one details
call, `None` returned, and the error sentinel cached for 300 seconds. -/
theorem enrich_stage2_notOK (key pid st : String) (dres : DetailsResult) (c : EnrichCache)
    (now fc : Nat) (hst : st ≠ "OK")
    (hmiss : cacheGetDetails c ("gdetails_v2:" ++ pid) now = none) :
    enrich_stage2 key pid (DetailsResp.response st dres) c now fc
      = { value := none
          cache := cacheSetDetails c ("gdetails_v2:" ++ pid)
            (DetailsCacheVal.apiError (some st)) 300 now
          findCalls := fc, detailsCalls := 1 } := by
  simp [enrich_stage2, hmiss, hst]

/-- On a details-cache miss, every upstream branch issues exactly one details
call. -/
theorem enrich_stage2_miss_calls (key pid : String) (dr : DetailsResp) (c : EnrichCache)
    (now fc : Nat) (hmiss : cacheGetDetails c ("gdetails_v2:" ++ pid) now = none) :
    (enrich_stage2 key pid dr c now fc).detailsCalls = 1 := by
  cases dr with
  | exn => simp [enrich_stage2, hmiss]
  | response status result =>
    by_cases hs : status = "OK" <;> simp [enrich_stage2, hmiss, hs]

/-- C7: after a details lookup for a known place id fails with a non-success
upstream status, the failure sentinel is cached for 300 seconds (strictly
shorter than the 6-hour success TTL).  Re-running the enrichment for the same
id within that window returns `None` without issuing a details upstream call;
re-running it at or after expiry issues the details call again. -/
theorem negative_cache_rate_limits (key pid st bn : String) (addr : Option String)
    (la lo : Option Rat) (fr fr2 fr3 : FindPlaceResp) (dres : DetailsResult)
    (dr2 dr3 : DetailsResp) (c : EnrichCache) (t0 t1 t2 : Nat)
    (hpid : pid ≠ "") (hst : st ≠ "OK")
    (hmiss : cacheGetDetails c ("gdetails_v2:" ++ pid) t0 = none)
    (h1 : t1 < t0 + 300) (h2 : t0 + 300 ≤ t2) :
    (enrich_with_google_places (some key) bn addr la lo (some pid) fr
        (DetailsResp.response st dres) c t0).value = none
    ∧ (enrich_with_google_places (some key) bn addr la lo (some pid) fr
        (DetailsResp.response st dres) c t0).detailsCalls = 1
    ∧ (enrich_with_google_places (some key) bn addr la lo (some pid) fr2 dr2
        (enrich_with_google_places (some key) bn addr la lo (some pid) fr
          (DetailsResp.response st dres) c t0).cache t1).value = none
    ∧ (enrich_with_google_places (some key) bn addr la lo (some pid) fr2 dr2
        (enrich_with_google_places (some key) bn addr la lo (some pid) fr
          (DetailsResp.response st dres) c t0).cache t1).detailsCalls = 0
    ∧ (enrich_with_google_places (some key) bn addr la lo (some pid) fr3 dr3
        (enrich_with_google_places (some key) bn addr la lo (some pid) fr
          (DetailsResp.response st dres) c t0).cache t2).detailsCalls = 1
    ∧ 300 < PLACE_DETAILS_CACHE_TIMEOUT := by
  have hrun1 : enrich_with_google_places (some key) bn addr la lo (some pid) fr
      (DetailsResp.response st dres) c t0
      = { value := none
          cache := cacheSetDetails c ("gdetails_v2:" ++ pid)
            (DetailsCacheVal.apiError (some st)) 300 t0
          findCalls := 0, detailsCalls := 1 } := by
    rw [enrich_known_pid key pid hpid, enrich_stage2_notOK key pid st dres c t0 0 hst hmiss]
  have hhit : cacheGetDetails (cacheSetDetails c ("gdetails_v2:" ++ pid)
      (DetailsCacheVal.apiError (some st)) 300 t0) ("gdetails_v2:" ++ pid) t1
      = some (DetailsCacheVal.apiError (some st)) := by
    rw [cacheGetDetails_set_same]
    rw [if_pos h1]
  have hmiss2 : cacheGetDetails (cacheSetDetails c ("gdetails_v2:" ++ pid)
      (DetailsCacheVal.apiError (some st)) 300 t0) ("gdetails_v2:" ++ pid) t2 = none := by
    rw [cacheGetDetails_set_same]
    rw [if_neg (by omega)]
  refine ⟨by rw [hrun1], by rw [hrun1], ?_, ?_, ?_, by norm_num [PLACE_DETAILS_CACHE_TIMEOUT]⟩
  · rw [hrun1, enrich_known_pid key pid hpid]
    simp [enrich_stage2, hhit]
  · rw [hrun1, enrich_known_pid key pid hpid]
    simp [enrich_stage2, hhit]
  · rw [hrun1, enrich_known_pid key pid hpid]
    exact enrich_stage2_miss_calls key pid dr3 _ t2 0 hmiss2

/-- The empty shared cache. -/
def emptyEnrichCache : EnrichCache := { findC := fun _ => none, detailsC := fun _ => none }

/-- Witness for `negative_cache_rate_limits` at concrete inputs: place id "p",
failing status "NOT_FOUND", empty initial cache, failure at t=0, re-queries at
t=299 (inside the window) and t=300 (expired). -/
theorem negative_cache_rate_limits_witness :
    (enrich_with_google_places (some "k") "biz" none none none (some "p")
        FindPlaceResp.exn (DetailsResp.response "NOT_FOUND" {}) emptyEnrichCache 0).value = none
    ∧ (enrich_with_google_places (some "k") "biz" none none none (some "p")
        FindPlaceResp.exn (DetailsResp.response "NOT_FOUND" {}) emptyEnrichCache 0).detailsCalls = 1
    ∧ (enrich_with_google_places (some "k") "biz" none none none (some "p")
        FindPlaceResp.exn DetailsResp.exn
        (enrich_with_google_places (some "k") "biz" none none none (some "p")
          FindPlaceResp.exn (DetailsResp.response "NOT_FOUND" {}) emptyEnrichCache 0).cache
        299).value = none
    ∧ (enrich_with_google_places (some "k") "biz" none none none (some "p")
        FindPlaceResp.exn DetailsResp.exn
        (enrich_with_google_places (some "k") "biz" none none none (some "p")
          FindPlaceResp.exn (DetailsResp.response "NOT_FOUND" {}) emptyEnrichCache 0).cache
        299).detailsCalls = 0
    ∧ (enrich_with_google_places (some "k") "biz" none none none (some "p")
        FindPlaceResp.exn DetailsResp.exn
        (enrich_with_google_places (some "k") "biz" none none none (some "p")
          FindPlaceResp.exn (DetailsResp.response "NOT_FOUND" {}) emptyEnrichCache 0).cache
        300).detailsCalls = 1
    ∧ 300 < PLACE_DETAILS_CACHE_TIMEOUT :=
  negative_cache_rate_limits "k" "p" "NOT_FOUND" "biz" none none none
    FindPlaceResp.exn FindPlaceResp.exn FindPlaceResp.exn {} DetailsResp.exn DetailsResp.exn
    emptyEnrichCache 0 299 300 (by decide) (by decide) rfl (by omega) (by omega)
